import Mathlib

/-!
# Native client / auth helper bridge

A shallow embedding of `NativeClientActivity.cpp` and
`auth_helper/google_auth_helper.cpp`, and the properties of the two files that
the specification states.

* Native code is embedded as state-passing functions on `State`.  A result of
  `none` stands for undefined behaviour of the C++: a store outside an array, a
  read of an indeterminate byte, a call through a null handle or a null object.
* Every JNI call, every call into the managed side, every line for the platform
  log and every call through a callback pointer is recorded, in order, in
  `State.trace`.
* The answers of the managed side are the fields of `Host`.  The managed methods
  `configure`, `authenticate` and `signOut` return without an exception.
* A C `char` is one `Char`.  A string behind a `const char*` or a `jstring` is
  the list of its characters before the terminator; the line buffer of
  `AppendLogMessage` is embedded cell by cell, terminators included.
* Pointers have 64 bits.  Thread attachment (`GetJniEnv`), reference creation
  and `GetStringUTFChars` succeed.
* A call through an `AuthCallback` is an event; the effects of the callee are
  not part of `NativeOnAuthResult`.  The callee used by this program,
  `OnAuthenticated`, is embedded as a function of its own.
-/

namespace ClientServerSkeleton

/-! ## C strings and the line buffer -/

/-- The string terminator of C. -/
def NUL : Char := Char.ofNat 0

/-- A `char` array with automatic storage: `none` is a byte never written. -/
abbrev CharArray := List (Option Char)

/-- The statement `buf[i] = c`; `none` when `i` is not an index of `buf`. -/
def CharArray.store (buf : CharArray) (i : Int) (c : Char) : Option CharArray :=
  if 0 ≤ i ∧ i < buf.length then some (buf.set i.toNat (some c)) else none

/-- Reading `buf` as a C string: the characters before the first terminator.
`none` when the scan meets an indeterminate byte or leaves the array. -/
def cstring : CharArray → Option (List Char)
  | [] => none
  | none :: _ => none
  | some c :: rest => if c = NUL then some [] else (cstring rest).map (c :: ·)

/-- What a `printf`-family call makes of a format and its arguments. -/
inductive Formatted where
  /-- The complete expansion of the format. -/
  | text (expansion : List Char)
  /-- The call fails; it returns the negative value `-(n + 1)`. -/
  | error (n : Nat)
  deriving DecidableEq, Repr

/-- The value `vsnprintf` returns: the length of the complete expansion, or the
negative error value. -/
def Formatted.returnValue : Formatted → Int
  | .text expansion => expansion.length
  | .error n => Int.negSucc n

/-- The call `vsnprintf(buf, size, format, list)` with `size ≤ buf.length`: at most
`size - 1` characters of the expansion, then the terminator, are stored at the
start of `buf`; on an error nothing is stored. -/
def vsnprintf (buf : CharArray) (size : Nat) (f : Formatted) : CharArray × Int :=
  match f with
  | .text expansion =>
    if size = 0 then (buf, f.returnValue)
    else
      let written := expansion.take (size - 1) ++ [NUL]
      (written.map some ++ buf.drop written.length, f.returnValue)
  | .error _ => (buf, f.returnValue)

/-- The constant `kLineBufferSize` of `AppendLogMessage`. -/
def kLineBufferSize : Nat := 256

/-- The line `string_len = string_len < kLineBufferSize ? string_len : kLineBufferSize`. -/
def clampStringLen (string_len : Int) : Int :=
  if string_len < kLineBufferSize then string_len else kLineBufferSize

/-- The first four statements of `AppendLogMessage` after `va_start`: the local
`buffer[kLineBufferSize + 2]`, the `vsnprintf` call, the clamp, and the two stores
of the line break and the terminator.  The result is the array handed to
`NewStringUTF`. -/
def lineBuffer (f : Formatted) : Option CharArray :=
  let buffer : CharArray := List.replicate (kLineBufferSize + 2) none
  let (buffer, string_len) := vsnprintf buffer kLineBufferSize f
  let string_len := clampStringLen string_len
  (buffer.store string_len '\n').bind fun buffer =>
  buffer.store (string_len + 1) NUL

/-! ## Values crossing the boundary -/

/-- A `const char*` to a C string: the address, and the characters stored there. -/
structure CharPtr where
  addr : Nat
  chars : List Char
  deriving DecidableEq, Repr

/-- A `jstring`: the reference, and the characters of the string it refers to. -/
structure JString where
  ref : Nat
  chars : List Char
  deriving DecidableEq, Repr

/-- A `jobjectArray` of strings: the reference and the current elements. -/
structure JStringArray where
  ref : Nat
  elems : List (Option JString)
  deriving DecidableEq, Repr

/-- The struct `GoogleAuthHelper::Configuration`.  `additional_scopes` is `none`
for a null pointer, otherwise the array of `const char*` it points to. -/
structure Configuration where
  use_game_signin : Bool
  web_client_id : Option CharPtr
  request_auth_code : Bool
  force_token_refresh : Bool
  request_email : Bool
  request_id_token : Bool
  hide_ui_popups : Bool
  account_name : Option CharPtr
  additional_scopes : Option (List (Option CharPtr))
  additional_scope_count : Int
  deriving DecidableEq, Repr

/-- The arguments of the managed `configure` method, after the class and method. -/
structure ConfigureArgs where
  activity : Nat
  use_game_signin : Bool
  web_client_id : Option JString
  request_auth_code : Bool
  force_token_refresh : Bool
  request_email : Bool
  request_id_token : Bool
  hide_ui_popups : Bool
  account_name : Option JString
  scopes : Option JStringArray
  deriving DecidableEq, Repr

/-- One observable step: a JNI call, a call into the managed side, a line for
the platform log, or the invocation of a native callback. -/
inductive Event where
  /-- The call `__android_log_print(prio, LOG_TAG, text)`. -/
  | androidLog (prio : Nat) (text : List Char)
  /-- The call `__android_log_vprint(prio, LOG_TAG, format, list)`. -/
  | androidLogV (prio : Nat) (f : Formatted)
  | newStringUTF (s : JString)
  | deleteLocalRef (ref : Nat)
  | getStringUTFLength (s : JString)
  | getStringUTFChars (s : JString) (p : CharPtr)
  | releaseStringUTFChars (s : JString) (p : CharPtr)
  | findClass (name : String) (ref : Option Nat)
  | newGlobalRef (obj ref : Nat)
  | registerNatives (cls : Nat)
  | newObjectArray (count : Int) (cls ref : Nat)
  | setObjectArrayElement (array : Nat) (index : Nat) (value : Option JString)
  | exceptionOccurred (ref : Nat)
  | exceptionClear
  /-- The call `new char[size]`. -/
  | newCharArray (size : Int) (addr : Nat)
  /-- The managed call `activity.toString()` made on a throwable. -/
  | objectToString (obj : Nat) (s : JString)
  /-- The managed call `activity.appendStatusText(text)`. -/
  | appendStatusText (activity : Nat) (text : JString)
  /-- The managed call `activity.getString(id)`. -/
  | getString (activity : Nat) (id : Int)
  /-- The managed call `AuthHelperFragment.configure(...)`. -/
  | configure (args : ConfigureArgs)
  /-- The managed call `AuthHelperFragment.authenticate(callback, data)`. -/
  | authenticate (callback callback_data : Int)
  /-- The managed call `AuthHelperFragment.signOut()`. -/
  | signOut
  /-- The call `cb(cb_data, rc, auth_code, email, id_token)` through an `AuthCallback`. -/
  | callback (cb cb_data : Nat) (rc : Int) (auth_code email id_token : Option CharPtr)
  deriving DecidableEq, Repr

/-- The part of a run decided outside the native code. -/
structure Host where
  /-- The value of the static field `R$string.webclient_id`. -/
  webclient_id : Int
  /-- The answer of `activity.getString(id)`; `none` when it throws. -/
  getString : Int → Option (List Char)
  /-- The text of the exception `appendStatusText(text)` throws, if it throws. -/
  appendStatusText : List Char → Option (List Char)
  /-- The text of the exception `FindClass(HELPER_CLASSNAME)` raises; `none`
  when the class, with its three static methods, is found. -/
  helperClassMissing : Option (List Char)
  /-- The boolean the managed `configure` method returns. -/
  configure : ConfigureArgs → Bool
  /-- The address of the function `OnAuthenticated`. -/
  OnAuthenticated : Nat

/-- The globals of `NativeClientActivity.cpp`, the statics of `GoogleAuthHelper`,
and the state of the JNI environment.  The handles `JNI_OnLoad` caches
(`g_vm`, `g_activity_class`, the two method ids) are taken as resolved: the two
native entry points exist only after `RegisterNatives` in `JNI_OnLoad`. -/
structure State where
  g_instance : Option Nat
  g_activity : Option Nat
  AuthHelperConfig : Configuration
  helper_clazz_ : Option Nat
  config_method_ : Bool
  authenticate_method_ : Bool
  signout_method_ : Bool
  /-- The next fresh JNI reference. -/
  nextRef : Nat
  /-- The local references created and not yet deleted. -/
  localRefs : List Nat
  /-- The next fresh native address. -/
  nextAddr : Nat
  /-- The text of the pending managed exception, if one is pending. -/
  exception : Option (List Char)
  trace : List Event

/-- The initializer of the static `AuthHelperConfig`; `account_name` has no
designator and is zero-initialized. -/
def AuthHelperConfig : Configuration where
  use_game_signin := true
  web_client_id := none
  request_auth_code := true
  force_token_refresh := false
  request_email := false
  request_id_token := false
  additional_scopes := none
  additional_scope_count := 0
  hide_ui_popups := false
  account_name := none

/-- The state when the library has been loaded and `JNI_OnLoad` has returned. -/
def loaded : State where
  g_instance := none
  g_activity := none
  AuthHelperConfig := AuthHelperConfig
  helper_clazz_ := none
  config_method_ := false
  authenticate_method_ := false
  signout_method_ := false
  nextRef := 1
  localRefs := []
  nextAddr := 1
  exception := none
  trace := []

/-! ## JNI primitives -/

def emit (e : Event) (st : State) : State :=
  { st with trace := st.trace ++ [e] }

/-- A fresh local reference. -/
def newLocalRef (st : State) : Nat × State :=
  (st.nextRef, { st with nextRef := st.nextRef + 1, localRefs := st.localRefs ++ [st.nextRef] })

/-- The call `env->NewStringUTF(bytes)`; a null argument gives a null result. -/
def NewStringUTF (bytes : Option (List Char)) (st : State) : Option JString × State :=
  match bytes with
  | none => (none, st)
  | some chars =>
    let (ref, st) := newLocalRef st
    (some ⟨ref, chars⟩, emit (.newStringUTF ⟨ref, chars⟩) st)

def DeleteLocalRef (ref : Nat) (st : State) : State :=
  emit (.deleteLocalRef ref) { st with localRefs := st.localRefs.erase ref }

def NewGlobalRef (obj : Nat) (st : State) : Nat × State :=
  (st.nextRef, emit (.newGlobalRef obj st.nextRef) { st with nextRef := st.nextRef + 1 })

/-- The call `env->FindClass(name)` for a class that exists. -/
def FindClass (name : String) (st : State) : Nat × State :=
  let (ref, st) := newLocalRef st
  (ref, emit (.findClass name (some ref)) st)

/-- The call `env->GetStringUTFChars(s, nullptr)`. -/
def GetStringUTFChars (s : JString) (st : State) : CharPtr × State :=
  let p : CharPtr := ⟨st.nextAddr, s.chars⟩
  (p, emit (.getStringUTFChars s p) { st with nextAddr := st.nextAddr + 1 })

def ReleaseStringUTFChars (s : JString) (p : CharPtr) (st : State) : State :=
  emit (.releaseStringUTFChars s p) st

/-! ## NativeClientActivity.cpp -/

def ANDROID_LOG_INFO : Nat := 4
def ANDROID_LOG_WARN : Nat := 5
def ANDROID_LOG_ERROR : Nat := 6

/-- The function `CheckJNIException`. -/
def CheckJNIException (st : State) : State :=
  match st.exception with
  | none => st
  | some text =>
    let (exception, st) := newLocalRef st
    let st := emit (.exceptionOccurred exception) st
    let st := emit .exceptionClear { st with exception := none }
    let (_object_class, st) := FindClass "java/lang/Object" st
    let (ref, st) := newLocalRef st
    let s : JString := ⟨ref, text⟩
    let st := emit (.objectToString exception s) st
    let (exception_text, st) := GetStringUTFChars s st
    let st := emit (.androidLog ANDROID_LOG_ERROR "-------------------JNI exception:".toList) st
    let st := emit (.androidLog ANDROID_LOG_ERROR exception_text.chars) st
    let st := emit (.androidLog ANDROID_LOG_ERROR "-------------------".toList) st
    let st := ReleaseStringUTFChars s exception_text st
    let st := DeleteLocalRef s.ref st
    DeleteLocalRef exception st

/-- The function `AppendLogMessage(format, ...)`, given what the format and
its arguments expand to. -/
def AppendLogMessage (host : Host) (f : Formatted) (st : State) : Option State :=
  match lineBuffer f with
  | none => none
  | some buffer =>
    let st := emit (.androidLogV ANDROID_LOG_INFO f) st
    match cstring buffer with
    | none => none
    | some text =>
      let (text_string, st) := NewStringUTF (some text) st
      match st.g_activity, text_string with
      | some activity, some text_string =>
        let st := emit (.appendStatusText activity text_string) st
        let st :=
          match host.appendStatusText text_string.chars with
          | some thrown => { st with exception := some thrown }
          | none => st
        let st := DeleteLocalRef text_string.ref st
        some (CheckJNIException st)
      | _, _ => none

/-! ## auth_helper/google_auth_helper.cpp -/

def HELPER_CLASSNAME : String := "com/google/sample/authhelper/AuthHelperFragment"

/-- The cast `reinterpret_cast<jlong>(p)` of a 64-bit pointer: the same 64 bits
read as a signed integer. -/
def toJlong (p : Nat) : Int :=
  if p % 2 ^ 64 < 2 ^ 63 then ((p % 2 ^ 64 : Nat) : Int) else ((p % 2 ^ 64 : Nat) : Int) - 2 ^ 64

/-- The cast `reinterpret_cast<T*>(j)` of a `jlong` to a 64-bit pointer. -/
def toPointer (j : Int) : Nat :=
  (j % 2 ^ 64).toNat

/-- The function `GoogleAuthHelper::Initialize`. -/
def GoogleAuthHelper.Initialize (host : Host) (st : State) : State :=
  match host.helperClassMissing with
  | some thrown =>
    emit (.findClass HELPER_CLASSNAME none)
      { st with helper_clazz_ := none, exception := some thrown }
  | none =>
    let (found, st) := FindClass HELPER_CLASSNAME st
    let (global, st) := NewGlobalRef found st
    let st := emit (.registerNatives global) { st with helper_clazz_ := some global }
    { st with config_method_ := true, authenticate_method_ := true, signout_method_ := true }

/-- The function `GoogleAuthHelper::Create`: the address of the new object. -/
def GoogleAuthHelper.Create (host : Host) (st : State) : Nat × State :=
  let st := GoogleAuthHelper.Initialize host st
  (st.nextAddr, { st with nextAddr := st.nextAddr + 1 })

/-- The loop `for (int i = 0; i < count; i++)` of `Configure`, with `remaining`
iterations left before index `i`. -/
def Configure.scopeLoop (additional_scopes : Option (List (Option CharPtr))) :
    (remaining i : Nat) → JStringArray → State → Option (JStringArray × State)
  | 0, _, j_auth_scopes, st => some (j_auth_scopes, st)
  | remaining + 1, i, j_auth_scopes, st =>
    match additional_scopes with
    | none => none
    | some scopes =>
      match scopes.get? i with
      | none => none
      | some scope =>
        let (j_scope, st) := NewStringUTF (scope.map CharPtr.chars) st
        let st := emit (.setObjectArrayElement j_auth_scopes.ref i j_scope) st
        Configure.scopeLoop additional_scopes remaining (i + 1)
          { j_auth_scopes with elems := j_auth_scopes.elems.set i j_scope } st

/-- The function `GoogleAuthHelper::Configure`. -/
def GoogleAuthHelper.Configure (host : Host) (activity : Nat) (config : Configuration)
    (st : State) : Option (Bool × State) :=
  let (j_web_client_id, st) := NewStringUTF (config.web_client_id.map CharPtr.chars) st
  let (j_account_name, st) := NewStringUTF (config.account_name.map CharPtr.chars) st
  let scopes : Option (Option JStringArray × State) :=
    if config.additional_scope_count > 0 then
      let (string_clazz, st) := FindClass "java/lang/String" st
      let (ref, st) := newLocalRef st
      let st := emit (.newObjectArray config.additional_scope_count string_clazz ref) st
      let j_auth_scopes : JStringArray :=
        ⟨ref, List.replicate config.additional_scope_count.toNat none⟩
      (Configure.scopeLoop config.additional_scopes config.additional_scope_count.toNat 0
          j_auth_scopes st).map
        fun (j_auth_scopes, st) => (some j_auth_scopes, DeleteLocalRef string_clazz st)
    else some (none, st)
  match scopes with
  | none => none
  | some (j_auth_scopes, st) =>
    match st.helper_clazz_, st.config_method_ with
    | some _, true =>
      let args : ConfigureArgs :=
        { activity := activity
          use_game_signin := config.use_game_signin
          web_client_id := j_web_client_id
          request_auth_code := config.request_auth_code
          force_token_refresh := config.force_token_refresh
          request_email := config.request_email
          request_id_token := config.request_id_token
          hide_ui_popups := config.hide_ui_popups
          account_name := j_account_name
          scopes := j_auth_scopes }
      let st := emit (.configure args) st
      let retval := host.configure args
      let st := match j_web_client_id with
        | some s => DeleteLocalRef s.ref st
        | none => st
      let st := match j_account_name with
        | some s => DeleteLocalRef s.ref st
        | none => st
      let st := match j_auth_scopes with
        | some a => DeleteLocalRef a.ref st
        | none => st
      some (retval, st)
    | _, _ => none

/-- The function `GoogleAuthHelper::Authenticate`. -/
def GoogleAuthHelper.Authenticate (callback callback_data : Nat) (st : State) : Option State :=
  match st.helper_clazz_, st.authenticate_method_ with
  | some _, true => some (emit (.authenticate (toJlong callback) (toJlong callback_data)) st)
  | _, _ => none

/-- The function `GoogleAuthHelper::Signout`. -/
def GoogleAuthHelper.Signout (st : State) : Option State :=
  match st.helper_clazz_, st.signout_method_ with
  | some _, true => some (emit .signOut st)
  | _, _ => none

/-- The expression `s ? env->GetStringUTFChars(s, nullptr) : nullptr`. -/
def getCharsOrNull (s : Option JString) (st : State) : Option CharPtr × State :=
  match s with
  | some s => let (p, st) := GetStringUTFChars s st; (some p, st)
  | none => (none, st)

/-- The statement `if (c) { env->ReleaseStringUTFChars(s, c); }`. -/
def releaseIfSet (s : Option JString) (c : Option CharPtr) (st : State) : State :=
  match c, s with
  | some c, some s => ReleaseStringUTFChars s c st
  | _, _ => st

/-- The function `GoogleAuthHelper::NativeOnAuthResult`.  The call through `cb`
is recorded; what the callee does is not part of this function. -/
def GoogleAuthHelper.NativeOnAuthResult (callback callback_data result : Int)
    (auth_code email id_token : Option JString) (st : State) : State :=
  let cb := toPointer callback
  if cb ≠ 0 then
    let (c_auth_code, st) := getCharsOrNull auth_code st
    let (c_email, st) := getCharsOrNull email st
    let (c_id_token, st) := getCharsOrNull id_token st
    let st := emit (.callback cb (toPointer callback_data) result c_auth_code c_email c_id_token) st
    let st := releaseIfSet auth_code c_auth_code st
    let st := releaseIfSet email c_email st
    releaseIfSet id_token c_id_token st
  else st

/-! ## NativeClientActivity.cpp, entry points -/

def TAG_SIGNIN : Int := 1
def TAG_SIGNOUT : Int := 2

/-- The digits `%d` prints for a natural number. -/
def decimal (n : Nat) : List Char :=
  if n = 0 then ['0'] else (Nat.digits 10 n).reverse.map Nat.digitChar

/-- The conversion `%d` of `printf`. -/
def format_d (i : Int) : List Char :=
  if i < 0 then '-' :: decimal i.natAbs else decimal i.natAbs

/-- The call `strcpy(dst, src)` into an array of `capacity` bytes: the
characters now at `dst`; `none` when they and the terminator do not fit. -/
def strcpy (capacity : Int) (src : List Char) : Option (List Char) :=
  if (src.length : Int) + 1 ≤ capacity then some src else none

/-- The block `if (j_id) { ... } else { ... }` of `NativeOnCreate`, with the value
read from `R$string.webclient_id`. -/
def NativeOnCreate.loadWebClientId (host : Host) (j_id : Int) (st : State) : Option State :=
  if j_id ≠ 0 then
    match st.g_activity with
    | none => none
    | some activity =>
      let st := emit (.getString activity j_id) st
      match host.getString j_id with
      | none => none
      | some chars =>
        let (ref, st) := newLocalRef st
        let j_str : JString := ⟨ref, chars⟩
        let st := emit (.getStringUTFLength j_str) st
        let size : Int := j_str.chars.length
        let client_id := st.nextAddr
        let st := emit (.newCharArray (size + 2) client_id) { st with nextAddr := st.nextAddr + 1 }
        let (value, st) := GetStringUTFChars j_str st
        match strcpy (size + 2) value.chars with
        | none => none
        | some copied =>
          let st :=
            { st with AuthHelperConfig :=
                { st.AuthHelperConfig with web_client_id := some ⟨client_id, copied⟩ } }
          let st := ReleaseStringUTFChars j_str value st
          let st := DeleteLocalRef j_str.ref st
          AppendLogMessage host (.text "Native Client Initialized".toList) st
  else AppendLogMessage host (.text "Could not load web client id".toList) st

/-- The function `NativeOnCreate`. -/
def NativeOnCreate (host : Host) (activity : Nat) (st : State) : Option State :=
  let (global, st) := NewGlobalRef activity st
  let st := { st with g_activity := some global }
  let st := emit (.androidLog ANDROID_LOG_WARN "Finding web client id".toList) st
  let (res_id_cls, st) := FindClass "com/google/sample/clientserverskeleton/R$string" st
  let j_id := host.webclient_id
  match NativeOnCreate.loadWebClientId host j_id st with
  | none => none
  | some st =>
    let st := DeleteLocalRef res_id_cls st
    let (instance_, st) := GoogleAuthHelper.Create host st
    some { st with g_instance := some instance_ }

/-- The function `NativeOnClick`. -/
def NativeOnClick (host : Host) (activity : Nat) (tag : Int) (st : State) : Option State :=
  if tag = TAG_SIGNIN then
    match AppendLogMessage host (.text "Calling Authenticate!".toList) st with
    | none => none
    | some st =>
      match st.g_instance with
      | none => none
      | some _ =>
        match GoogleAuthHelper.Configure host activity st.AuthHelperConfig st with
        | none => none
        | some (_, st) => GoogleAuthHelper.Authenticate host.OnAuthenticated 0 st
  else if tag = TAG_SIGNOUT then
    match AppendLogMessage host (.text "Calling Signout".toList) st with
    | none => none
    | some st =>
      match st.g_instance with
      | none => none
      | some _ => GoogleAuthHelper.Signout st
  else
    AppendLogMessage host
      (.text ("Unknown tag ".toList ++ format_d tag ++ " in OnClick".toList)) st

/-- The expression `s ? s : "<null>"`. -/
def orNullText (s : Option CharPtr) : List Char :=
  match s with
  | some p => p.chars
  | none => "<null>".toList

/-- The function `OnAuthenticated`, the callback `NativeOnClick` hands to
`Authenticate`. -/
def OnAuthenticated (host : Host) (_cb_data : Nat) (rc : Int)
    (auth_code email id_token : Option CharPtr) (st : State) : Option State :=
  (AppendLogMessage host (.text ("Callback returned ".toList ++ format_d rc ++ ['\n'])) st).bind
    fun st =>
  (AppendLogMessage host (.text ("   Authcode: ".toList ++ orNullText auth_code ++ ['\n']))
    st).bind fun st =>
  (AppendLogMessage host (.text ("   email: ".toList ++ orNullText email ++ ['\n'])) st).bind
    fun st =>
  AppendLogMessage host (.text ("   id_token: ".toList ++ orNullText id_token ++ ['\n'])) st

/-! ## Observations on a trace -/

/-- The components of the state that are program variables. -/
def State.globals (st : State) :
    Option Nat × Option Nat × Configuration × Option Nat × Bool × Bool × Bool :=
  (st.g_instance, st.g_activity, st.AuthHelperConfig, st.helper_clazz_, st.config_method_,
    st.authenticate_method_, st.signout_method_)

/-- The texts handed to `appendStatusText`, in order. -/
def uiLines (tr : List Event) : List (List Char) :=
  tr.filterMap fun
    | .appendStatusText _ text => some text.chars
    | _ => none

/-- The calls into the managed auth helper: `configure`, `authenticate`, `signOut`. -/
def authCalls (tr : List Event) : List Event :=
  tr.filter fun
    | .configure _ => true
    | .authenticate _ _ => true
    | .signOut => true
    | _ => false

/-- The resource identifiers passed to `getString`, in order. -/
def getStringCalls (tr : List Event) : List Int :=
  tr.filterMap fun
    | .getString _ id => some id
    | _ => none

/-- The invocations of native callbacks, in order. -/
def callbacks (tr : List Event) : List Event :=
  tr.filter fun
    | .callback _ _ _ _ _ _ => true
    | _ => false

/-- The strings converted by `GetStringUTFChars`, in order. -/
def conversions (tr : List Event) : List JString :=
  tr.filterMap fun
    | .getStringUTFChars s _ => some s
    | _ => none

/-- The strings whose conversion is handed back by `ReleaseStringUTFChars`, in order. -/
def releases (tr : List Event) : List JString :=
  tr.filterMap fun
    | .releaseStringUTFChars s _ => some s
    | _ => none

/-- The references of the arrays created by `NewObjectArray`, in order. -/
def arrayAllocations (tr : List Event) : List Nat :=
  tr.filterMap fun
    | .newObjectArray _ _ ref => some ref
    | _ => none

/-- The events `CheckJNIException` adds to the trace. -/
def exceptionReport (st : State) : List Event :=
  (CheckJNIException st).trace.drop st.trace.length

/-! ## A sample run -/

/-- A managed side on which every lookup succeeds and nothing throws. -/
def sampleHost : Host where
  webclient_id := 7
  getString := fun _ => some "abc".toList
  appendStatusText := fun _ => none
  helperClassMissing := none
  configure := fun _ => true
  OnAuthenticated := 4096

/-- The state after the first `NativeOnCreate` on `sampleHost`. -/
def created : State :=
  (NativeOnCreate sampleHost 100 loaded).getD loaded

/-- The configuration after `NativeOnCreate` on `sampleHost`, with one additional
scope, `email`. -/
def scopedConfig : Configuration :=
  { created.AuthHelperConfig with
    additional_scopes := some [some ⟨500, "email".toList⟩]
    additional_scope_count := 1 }

/-- The sample managed side without a web client id resource. -/
def unconfiguredHost : Host :=
  { sampleHost with webclient_id := 0 }

/-- The sample managed side without the class `AuthHelperFragment`: the lookup in
`GoogleAuthHelper::Initialize` raises an exception and returns null. -/
def missingHelperHost : Host :=
  { sampleHost with
    helperClassMissing := some "java.lang.ClassNotFoundException".toList }

/-- The state after the first `NativeOnCreate` on `missingHelperHost`. -/
def createdWithoutHelper : State :=
  (NativeOnCreate missingHelperHost 100 loaded).getD loaded

/-! ## Reachable states -/

/-- The states the native side is in after a first `NativeOnCreate`: those
reached from `loaded` by a call of `NativeOnCreate` followed by any calls of the
three native entry points and of the callback `OnAuthenticated`. -/
inductive ReachedAfterOnCreate (host : Host) : State → Prop where
  | create (activity : Nat) (st' : State) :
      NativeOnCreate host activity loaded = some st' → ReachedAfterOnCreate host st'
  | recreate (activity : Nat) (st st' : State) :
      ReachedAfterOnCreate host st → NativeOnCreate host activity st = some st' →
      ReachedAfterOnCreate host st'
  | click (activity : Nat) (tag : Int) (st st' : State) :
      ReachedAfterOnCreate host st → NativeOnClick host activity tag st = some st' →
      ReachedAfterOnCreate host st'
  | authResult (callback callback_data result : Int) (auth_code email id_token : Option JString)
      (st : State) :
      ReachedAfterOnCreate host st →
      ReachedAfterOnCreate host
        (GoogleAuthHelper.NativeOnAuthResult callback callback_data result auth_code email
          id_token st)
  | authenticated (cb_data : Nat) (rc : Int) (auth_code email id_token : Option CharPtr)
      (st st' : State) :
      ReachedAfterOnCreate host st →
      OnAuthenticated host cb_data rc auth_code email id_token st = some st' →
      ReachedAfterOnCreate host st'

/-! ## The line buffer -/

theorem set_length_append {α : Type} (pre : List α) (x y : α) (post : List α) :
    (pre ++ x :: post).set pre.length y = pre ++ y :: post := by
  induction pre with
  | nil => rfl
  | cons a pre ih => simp [ih]

theorem store_at_length (pre : CharArray) (x : Option Char) (post : CharArray) (c : Char)
    (i : Int) (hi : i = pre.length) :
    CharArray.store (pre ++ x :: post) i c = some (pre ++ some c :: post) := by
  subst hi
  simp [CharArray.store, set_length_append]

theorem cstring_terminated (e : List Char) (rest : CharArray) (h : NUL ∉ e) :
    cstring (e.map some ++ some NUL :: rest) = some e := by
  induction e with
  | nil => simp [cstring]
  | cons c e ih =>
    have hc : c ≠ NUL := fun hc => h (by simp [hc])
    have he : NUL ∉ e := fun he => h (by simp [he])
    simp [cstring, hc, ih he]

theorem lineBuffer_short (e : List Char) (h : e.length < kLineBufferSize) :
    lineBuffer (.text e) =
      some ((e ++ ['\n']).map some ++ some NUL :: List.replicate (kLineBufferSize - e.length) none) := by
  have hc : clampStringLen (e.length : Int) = e.length := by
    simp only [clampStringLen]; rw [if_pos (by exact_mod_cast h)]
  have hN : kLineBufferSize ≠ 0 := by decide
  simp only [lineBuffer, vsnprintf, Formatted.returnValue, if_neg hN, hc]
  generalize kLineBufferSize = N at *
  have h1 : List.take (N - 1) e = e := List.take_of_length_le (by omega)
  have h2 : N + 2 - (e.length + 1) = (N - e.length) + 1 := by omega
  simp only [h1, List.length_append, List.length_singleton, List.drop_replicate, h2,
    List.map_append, List.map_cons, List.map_nil, List.append_assoc,
    List.singleton_append]
  rw [List.replicate_succ, store_at_length (e.map some) (some NUL) _ '\n' _ (by simp)]
  have := store_at_length (e.map some ++ [some '\n']) none (List.replicate (N - e.length) none) NUL (e.length + 1) (by simp)
  simpa using this

theorem lineBuffer_long (e : List Char) (h : kLineBufferSize ≤ e.length) :
    lineBuffer (.text e) =
      some ((e.take (kLineBufferSize - 1)).map some ++ [some NUL, some '\n', some NUL]) := by
  have hc : clampStringLen (e.length : Int) = kLineBufferSize := by
    simp only [clampStringLen]; rw [if_neg (by exact_mod_cast Nat.not_lt.mpr h)]
  have hN : kLineBufferSize ≠ 0 := by decide
  simp only [lineBuffer, vsnprintf, Formatted.returnValue, if_neg hN, hc]
  generalize kLineBufferSize = N at *
  have hl : (List.take (N - 1) e).length = N - 1 := by simp; omega
  have h2 : N + 2 - (N - 1 + 1) = 2 := by omega
  simp only [hl, List.length_append, List.length_singleton, List.drop_replicate, h2,
    List.map_append, List.map_cons, List.map_nil]
  have h1 := store_at_length ((e.take (N - 1)).map some ++ [some NUL]) none [none] '\n' N
    (by simp [hl]; omega)
  have h3 := store_at_length ((e.take (N - 1)).map some ++ [some NUL, some '\n']) none [] NUL (N + 1)
    (by simp [hl]; omega)
  have h4 : List.replicate 2 (none : Option Char) = [none, none] := rfl
  simp only [List.append_assoc, List.singleton_append, List.cons_append, List.nil_append, h4] at h1 h3 ⊢
  rw [h1]
  simpa using h3

/-- The text `NewStringUTF(buffer)` reads when the expansion fits. -/
theorem logText_short (e : List Char) (h : e.length < kLineBufferSize) (hz : NUL ∉ e) :
    (lineBuffer (.text e)).bind cstring = some (e ++ ['\n']) := by
  rw [lineBuffer_short e h]
  simp only [Option.some_bind]
  apply cstring_terminated
  simp only [List.mem_append, List.mem_singleton, not_or]
  exact ⟨hz, by decide⟩

theorem logText_long (e : List Char) (h : kLineBufferSize ≤ e.length)
    (hz : NUL ∉ e.take (kLineBufferSize - 1)) :
    (lineBuffer (.text e)).bind cstring = some (e.take (kLineBufferSize - 1)) := by
  rw [lineBuffer_long e h]
  simp only [Option.some_bind]
  exact cstring_terminated _ _ hz


/-! ## Logging -/

theorem CheckJNIException_spec (st : State) :
    (CheckJNIException st).globals = st.globals ∧
    ∃ new, (CheckJNIException st).trace = st.trace ++ new ∧
      uiLines new = [] ∧ authCalls new = [] ∧ getStringCalls new = [] := by
  unfold CheckJNIException
  cases h : st.exception with
  | none => exact ⟨rfl, [], by simp, rfl, rfl, rfl⟩
  | some text =>
    simp only [State.globals, newLocalRef, emit, FindClass, GetStringUTFChars,
      ReleaseStringUTFChars, DeleteLocalRef, List.append_assoc, true_and]
    refine ⟨_, rfl, ?_, ?_, ?_⟩
    · simp [uiLines]
    · simp [authCalls]
    · simp [getStringCalls]

theorem CheckJNIException_globals (st : State) :
    (CheckJNIException st).globals = st.globals :=
  (CheckJNIException_spec st).1

theorem CheckJNIException_trace (st : State) :
    (CheckJNIException st).trace = st.trace ++ exceptionReport st := by
  obtain ⟨new, hn, -⟩ := (CheckJNIException_spec st).2
  simp [exceptionReport, hn]

theorem exceptionReport_silent (st : State) :
    uiLines (exceptionReport st) = [] ∧ authCalls (exceptionReport st) = [] ∧
      getStringCalls (exceptionReport st) = [] := by
  obtain ⟨new, hn, h⟩ := (CheckJNIException_spec st).2
  have : exceptionReport st = new := by simp [exceptionReport, hn]
  rw [this]; exact h

theorem uiLines_append (a b : List Event) : uiLines (a ++ b) = uiLines a ++ uiLines b := by
  simp [uiLines]

theorem authCalls_append (a b : List Event) :
    authCalls (a ++ b) = authCalls a ++ authCalls b := by
  simp [authCalls]

theorem getStringCalls_append (a b : List Event) :
    getStringCalls (a ++ b) = getStringCalls a ++ getStringCalls b := by
  simp [getStringCalls]

/-- A call of `AppendLogMessage` whose buffer reads as `text`, made once
`g_activity` is set: it returns, hands exactly `text` to the user interface, and
calls neither the auth helper nor `getString`. -/
theorem AppendLogMessage_spec (host : Host) (f : Formatted) (st : State) (activity : Nat)
    (text : List Char) (ha : st.g_activity = some activity)
    (ht : (lineBuffer f).bind cstring = some text) :
    ∃ st', AppendLogMessage host f st = some st' ∧ st'.globals = st.globals ∧
      ∃ new, st'.trace = st.trace ++ new ∧
        uiLines new = [text] ∧ authCalls new = [] ∧ getStringCalls new = [] := by
  obtain ⟨buffer, hb, hc⟩ := Option.bind_eq_some.mp ht
  simp only [AppendLogMessage, hb, hc, NewStringUTF, newLocalRef, emit, ha]
  refine ⟨_, rfl, ?_, ?_⟩
  · rw [CheckJNIException_globals]
    cases host.appendStatusText text <;> simp [State.globals, DeleteLocalRef, emit, ha]
  · rw [CheckJNIException_trace]
    cases host.appendStatusText text <;>
    · simp only [DeleteLocalRef, emit, List.append_assoc]
      refine ⟨_, rfl, ?_⟩
      simp only [uiLines_append, authCalls_append, getStringCalls_append,
        exceptionReport_silent]
      simp [uiLines, authCalls, getStringCalls]

/-- Every expansion that `vsnprintf` formats without an error is stored inside
the buffer: the two stores after the clamp succeed. -/
theorem lineBuffer_text_isSome (e : List Char) : (lineBuffer (.text e)).isSome = true := by
  by_cases h : e.length < kLineBufferSize
  · rw [lineBuffer_short e h]; rfl
  · rw [lineBuffer_long e (Nat.le_of_not_lt h)]; rfl

/-- For a return value that is not negative the clamp gives an index `string_len`
with `0 ≤ string_len` and `string_len + 1 ≤ kLineBufferSize + 1`. -/
theorem clampStringLen_bounds (r : Int) (h : 0 ≤ r) :
    0 ≤ clampStringLen r ∧ clampStringLen r + 1 ≤ kLineBufferSize + 1 := by
  unfold clampStringLen
  split <;> constructor <;> simp only [kLineBufferSize] at * <;> omega

/-! ## Pointers and handles -/

theorem toPointer_toJlong (p : Nat) (h : p < 2 ^ 64) : toPointer (toJlong p) = p := by
  unfold toPointer toJlong
  have h1 : p % 2 ^ 64 = p := Nat.mod_eq_of_lt h
  rw [h1]
  norm_num at h ⊢
  split <;> omega

theorem toJlong_zero : toJlong 0 = 0 := by decide

theorem toPointer_ne_zero (j : Int) (h0 : j ≠ 0) (hlo : -2 ^ 63 ≤ j) (hhi : j < 2 ^ 63) :
    toPointer j ≠ 0 := by
  unfold toPointer
  norm_num at hlo hhi ⊢
  omega

/-! ## The callback trampoline -/

theorem callbacks_append (a b : List Event) :
    callbacks (a ++ b) = callbacks a ++ callbacks b := by
  simp [callbacks]

/-- The events of one call of the trampoline with a callback pointer that is
not null. -/
theorem NativeOnAuthResult_trace (callback callback_data result : Int)
    (auth_code email id_token : Option JString) (st : State)
    (hcb : toPointer callback ≠ 0) :
    ∃ new c_auth_code c_email c_id_token,
      (GoogleAuthHelper.NativeOnAuthResult callback callback_data result auth_code email
        id_token st).trace = st.trace ++ new ∧
      callbacks new = [Event.callback (toPointer callback) (toPointer callback_data) result
        c_auth_code c_email c_id_token] ∧
      c_auth_code.map CharPtr.chars = auth_code.map JString.chars ∧
      c_email.map CharPtr.chars = email.map JString.chars ∧
      c_id_token.map CharPtr.chars = id_token.map JString.chars ∧
      conversions new = auth_code.toList ++ email.toList ++ id_token.toList ∧
      releases new = auth_code.toList ++ email.toList ++ id_token.toList := by
  simp only [GoogleAuthHelper.NativeOnAuthResult, if_pos hcb]
  cases auth_code <;> cases email <;> cases id_token <;>
  · simp only [getCharsOrNull, releaseIfSet, GetStringUTFChars, ReleaseStringUTFChars, emit,
      List.append_assoc]
    refine ⟨_, _, _, _, rfl, rfl, ?_⟩
    simp [conversions, releases]

/-- An expansion shorter than the buffer, without a terminator inside: the user
interface gets the expansion followed by a line break. -/
theorem AppendLogMessage_fitting (host : Host) (st : State) (activity : Nat) (e : List Char)
    (ha : st.g_activity = some activity) (hlen : e.length < kLineBufferSize) (hz : NUL ∉ e) :
    ∃ st', AppendLogMessage host (.text e) st = some st' ∧
      uiLines st'.trace = uiLines st.trace ++ [e ++ ['\n']] := by
  obtain ⟨st', h, -, new, hn, hu, -⟩ :=
    AppendLogMessage_spec host _ st activity _ ha (logText_short e hlen hz)
  exact ⟨st', h, by rw [hn, uiLines_append, hu]⟩

/-- An expansion of `kLineBufferSize` characters or more, without a terminator
among the first `kLineBufferSize - 1`: the user interface gets these
`kLineBufferSize - 1` characters and nothing after them. -/
theorem AppendLogMessage_truncated (host : Host) (st : State) (activity : Nat) (e : List Char)
    (ha : st.g_activity = some activity) (hlen : kLineBufferSize ≤ e.length)
    (hz : NUL ∉ e.take (kLineBufferSize - 1)) :
    ∃ st', AppendLogMessage host (.text e) st = some st' ∧
      uiLines st'.trace = uiLines st.trace ++ [e.take (kLineBufferSize - 1)] := by
  obtain ⟨st', h, -, new, hn, hu, -⟩ :=
    AppendLogMessage_spec host _ st activity _ ha (logText_long e hlen hz)
  exact ⟨st', h, by rw [hn, uiLines_append, hu]⟩

/-- The shared configuration has no web client id before `NativeOnCreate`. -/
theorem loaded_web_client_id : loaded.AuthHelperConfig.web_client_id = none := rfl

/-! ## Claims on `AppendLogMessage` -/

/-- C1, evaluated on an expansion of 300 characters `a`: `AppendLogMessage`
returns and the text it hands to the user interface is 255 characters of the
expansion with no line break after them; it is not the 256 characters followed
by a line break. -/
theorem AppendLogMessage_long_expansion (host : Host) (st : State) (activity : Nat) :
    ∃ st', AppendLogMessage host (.text (List.replicate 300 'a'))
        { st with g_activity := some activity } = some st' ∧
      uiLines st'.trace = uiLines st.trace ++ [List.replicate 255 'a'] ∧
      uiLines st'.trace ≠ uiLines st.trace ++ [List.replicate 256 'a' ++ ['\n']] := by
  have hmin : min (kLineBufferSize - 1) 300 = 255 := by decide
  have ht : (lineBuffer (.text (List.replicate 300 'a'))).bind cstring =
      some (List.replicate 255 'a') := by
    rw [logText_long _ (by rw [List.length_replicate]; decide)]
    · rw [List.take_replicate, hmin]
    · rw [List.take_replicate, hmin, List.mem_replicate]
      exact fun h => absurd h.2 (by decide)
  obtain ⟨st', h, -, new, hn, hu, -⟩ :=
    AppendLogMessage_spec host _ { st with g_activity := some activity } activity _ rfl ht
  refine ⟨st', h, ?_, ?_⟩
  · rw [hn, uiLines_append, hu]
  · rw [hn, uiLines_append, hu]
    intro hne
    have h1 := List.append_cancel_left hne
    simp only [List.cons.injEq, and_true] at h1
    have hl := congrArg List.length h1
    simp only [List.length_replicate, List.length_append, List.length_singleton] at hl
    omega

/-- C10, evaluated on a failing `vsnprintf`, which returns `-(n + 1)`: the
clamp leaves the negative value unchanged, the store of the line break at that
index is outside the buffer, and `AppendLogMessage` has no defined result. -/
theorem AppendLogMessage_negative_return (host : Host) (st : State) (n : Nat) :
    clampStringLen (Formatted.error n).returnValue = Int.negSucc n ∧
      ¬ (0 ≤ clampStringLen (Formatted.error n).returnValue) ∧
      lineBuffer (.error n) = none ∧
      AppendLogMessage host (.error n) st = none := by
  have hneg : Int.negSucc n < 0 := Int.negSucc_lt_zero n
  have hc : clampStringLen (Formatted.error n).returnValue = Int.negSucc n := by
    simp only [clampStringLen, Formatted.returnValue]
    rw [if_pos (by simp only [kLineBufferSize]; omega)]
  have hb : lineBuffer (.error n) = none := by
    simp only [lineBuffer, vsnprintf, hc, CharArray.store]
    rw [if_neg (by omega)]
    rfl
  refine ⟨hc, by rw [hc]; omega, hb, ?_⟩
  simp only [AppendLogMessage, hb]

/-! ## Claims on the callback trampoline -/

/-- C4: a callback pointer `cb` that is not null and a data pointer `d` are
passed by `Authenticate` to the managed `authenticate` call as two handles such
that `NativeOnAuthResult`, called with these handles, any result code and any
three strings, invokes `cb` exactly once, with `d`, the result code, and for each
string a C string of the same content, or null for a null string. -/
theorem callback_round_trip (cb d : Nat) (hcb : cb ≠ 0) (hcb64 : cb < 2 ^ 64)
    (hd : d < 2 ^ 64) (st : State) (clazz : Nat) (hc : st.helper_clazz_ = some clazz)
    (hm : st.authenticate_method_ = true) :
    ∃ h1 h2, GoogleAuthHelper.Authenticate cb d st = some (emit (.authenticate h1 h2) st) ∧
      ∀ (rc : Int) (auth_code email id_token : Option JString) (st1 : State),
        ∃ new c_auth_code c_email c_id_token,
          (GoogleAuthHelper.NativeOnAuthResult h1 h2 rc auth_code email id_token st1).trace =
            st1.trace ++ new ∧
          callbacks new = [Event.callback cb d rc c_auth_code c_email c_id_token] ∧
          c_auth_code.map CharPtr.chars = auth_code.map JString.chars ∧
          c_email.map CharPtr.chars = email.map JString.chars ∧
          c_id_token.map CharPtr.chars = id_token.map JString.chars := by
  refine ⟨toJlong cb, toJlong d, by simp [GoogleAuthHelper.Authenticate, hc, hm], ?_⟩
  intro rc auth_code email id_token st1
  have hp : toPointer (toJlong cb) ≠ 0 := by rw [toPointer_toJlong cb hcb64]; exact hcb
  obtain ⟨new, a, e, t, hn, hcall, ha, he, ht, -⟩ :=
    NativeOnAuthResult_trace (toJlong cb) (toJlong d) rc auth_code email id_token st1 hp
  rw [toPointer_toJlong cb hcb64, toPointer_toJlong d hd] at hcall
  exact ⟨new, a, e, t, hn, hcall, ha, he, ht⟩

set_option maxRecDepth 100000 in
/-- C4 at the callback address 4096 and the data address 8192, in the state
after `NativeOnCreate` on `sampleHost`. -/
theorem callback_round_trip_witness :
    ((4096 : Nat) ≠ 0 ∧ (4096 : Nat) < 2 ^ 64 ∧ (8192 : Nat) < 2 ^ 64 ∧
      created.helper_clazz_ = some 6 ∧ created.authenticate_method_ = true) ∧
    ∃ h1 h2, GoogleAuthHelper.Authenticate 4096 8192 created =
        some (emit (.authenticate h1 h2) created) ∧
      ∀ (rc : Int) (auth_code email id_token : Option JString) (st1 : State),
        ∃ new c_auth_code c_email c_id_token,
          (GoogleAuthHelper.NativeOnAuthResult h1 h2 rc auth_code email id_token st1).trace =
            st1.trace ++ new ∧
          callbacks new = [Event.callback 4096 8192 rc c_auth_code c_email c_id_token] ∧
          c_auth_code.map CharPtr.chars = auth_code.map JString.chars ∧
          c_email.map CharPtr.chars = email.map JString.chars ∧
          c_id_token.map CharPtr.chars = id_token.map JString.chars :=
  ⟨⟨by decide, by decide, by decide, rfl, rfl⟩,
    callback_round_trip 4096 8192 (by decide) (by decide) (by decide) created 6 rfl rfl⟩

/-- The trampoline on the handles of the callback address 4096 and the data
address 8192, the result code 0, the auth code `abc123` and a null email and id
token: one conversion, one call `cb(data, 0, "abc123", null, null)`, one release. -/
theorem NativeOnAuthResult_sample :
    (GoogleAuthHelper.NativeOnAuthResult (toJlong 4096) (toJlong 8192) 0
      (some ⟨9, "abc123".toList⟩) none none loaded).trace =
      [Event.getStringUTFChars ⟨9, "abc123".toList⟩ ⟨1, "abc123".toList⟩,
       Event.callback 4096 8192 0 (some ⟨1, "abc123".toList⟩) none none,
       Event.releaseStringUTFChars ⟨9, "abc123".toList⟩ ⟨1, "abc123".toList⟩] := by
  decide

/-- C5: in a call of `NativeOnAuthResult` with a callback handle that is not 0,
each of the three strings that is null reaches the callback as a null pointer,
and the strings converted by `GetStringUTFChars`, like those released by
`ReleaseStringUTFChars`, are exactly the strings that are not null. -/
theorem NativeOnAuthResult_null_stays_null (callback callback_data result : Int)
    (auth_code email id_token : Option JString) (st : State)
    (h0 : callback ≠ 0) (hlo : -2 ^ 63 ≤ callback) (hhi : callback < 2 ^ 63) :
    ∃ new c_auth_code c_email c_id_token,
      (GoogleAuthHelper.NativeOnAuthResult callback callback_data result auth_code email
        id_token st).trace = st.trace ++ new ∧
      callbacks new = [Event.callback (toPointer callback) (toPointer callback_data) result
        c_auth_code c_email c_id_token] ∧
      (auth_code = none → c_auth_code = none) ∧
      (email = none → c_email = none) ∧
      (id_token = none → c_id_token = none) ∧
      conversions new = auth_code.toList ++ email.toList ++ id_token.toList ∧
      releases new = auth_code.toList ++ email.toList ++ id_token.toList := by
  obtain ⟨new, a, e, t, hn, hcall, ha, he, ht, hconv, hrel⟩ :=
    NativeOnAuthResult_trace callback callback_data result auth_code email id_token st
      (toPointer_ne_zero callback h0 hlo hhi)
  refine ⟨new, a, e, t, hn, hcall, ?_, ?_, ?_, hconv, hrel⟩
  · intro h; rw [h] at ha; simpa using ha
  · intro h; rw [h] at he; simpa using he
  · intro h; rw [h] at ht; simpa using ht

/-- C5 at the handle 4096 with the auth code `abc123` and a null email and id
token. -/
theorem NativeOnAuthResult_null_stays_null_witness :
    ((4096 : Int) ≠ 0 ∧ -2 ^ 63 ≤ (4096 : Int) ∧ (4096 : Int) < 2 ^ 63) ∧
    ∃ new c_auth_code c_email c_id_token,
      (GoogleAuthHelper.NativeOnAuthResult 4096 0 0 (some ⟨9, "abc123".toList⟩) none none
        loaded).trace = loaded.trace ++ new ∧
      callbacks new = [Event.callback (toPointer 4096) (toPointer 0) 0
        c_auth_code c_email c_id_token] ∧
      ((some ⟨9, "abc123".toList⟩ : Option JString) = none → c_auth_code = none) ∧
      ((none : Option JString) = none → c_email = none) ∧
      ((none : Option JString) = none → c_id_token = none) ∧
      conversions new = (some ⟨9, "abc123".toList⟩ : Option JString).toList ++
        (none : Option JString).toList ++ (none : Option JString).toList ∧
      releases new = (some ⟨9, "abc123".toList⟩ : Option JString).toList ++
        (none : Option JString).toList ++ (none : Option JString).toList :=
  ⟨⟨by decide, by decide, by decide⟩,
    NativeOnAuthResult_null_stays_null 4096 0 0 (some ⟨9, "abc123".toList⟩) none none loaded
      (by decide) (by decide) (by decide)⟩

/-- C9: a call of `NativeOnAuthResult` whose callback handle is 0 leaves the
state as it is, whatever the other arguments are: no callback is invoked, no
string is converted or released, and nothing is logged. -/
theorem NativeOnAuthResult_null_callback (callback_data result : Int)
    (auth_code email id_token : Option JString) (st : State) :
    GoogleAuthHelper.NativeOnAuthResult 0 callback_data result auth_code email id_token st
      = st := by
  simp [GoogleAuthHelper.NativeOnAuthResult, toPointer]

/-! ## Claims on `Configure` -/

theorem arrayAllocations_append (a b : List Event) :
    arrayAllocations (a ++ b) = arrayAllocations a ++ arrayAllocations b := by
  simp [arrayAllocations]

/-- C6: for a configuration whose `additional_scope_count` is 0, whatever its
other fields are, `Configure` returns, makes exactly one `configure` call, the
array argument of that call is null, and no array is created. -/
theorem Configure_no_scopes (host : Host) (activity : Nat) (config : Configuration)
    (st : State) (clazz : Nat) (h0 : config.additional_scope_count = 0)
    (hc : st.helper_clazz_ = some clazz) (hm : st.config_method_ = true) :
    ∃ args st' new,
      GoogleAuthHelper.Configure host activity config st = some (host.configure args, st') ∧
      st'.trace = st.trace ++ new ∧
      authCalls new = [Event.configure args] ∧
      args.scopes = none ∧
      arrayAllocations new = [] := by
  simp only [GoogleAuthHelper.Configure, h0, gt_iff_lt, lt_self_iff_false, if_false]
  cases config.web_client_id <;> cases config.account_name <;>
  · simp only [NewStringUTF, newLocalRef, emit, DeleteLocalRef, Option.map, hc, hm,
      List.append_assoc]
    refine ⟨_, _, _, rfl, rfl, ?_⟩
    simp [authCalls, arrayAllocations]

set_option maxRecDepth 100000 in
/-- C6 at the shared configuration in the state after `NativeOnCreate` on
`sampleHost`. -/
theorem Configure_no_scopes_witness :
    (created.AuthHelperConfig.additional_scope_count = 0 ∧ created.helper_clazz_ = some 6 ∧
      created.config_method_ = true) ∧
    ∃ args st' new,
      GoogleAuthHelper.Configure sampleHost 100 created.AuthHelperConfig created =
        some (sampleHost.configure args, st') ∧
      st'.trace = created.trace ++ new ∧
      authCalls new = [Event.configure args] ∧
      args.scopes = none ∧
      arrayAllocations new = [] :=
  ⟨⟨rfl, rfl, rfl⟩, Configure_no_scopes sampleHost 100 created.AuthHelperConfig created 6 rfl rfl rfl⟩

set_option maxRecDepth 100000 in
/-- C2, evaluated on a configuration with one additional scope, in the state
after `NativeOnCreate`, for either boolean `b` the managed `configure` call
returns: `Configure` returns `b`; the string created by `NewStringUTF` for the
scope has the local reference 10, no `DeleteLocalRef` is made on it, and it is
still among the live local references when `Configure` returns, while the
references of the web client id string (7), the class (8) and the array (9) are
deleted. -/
theorem Configure_scope_string_not_released (b : Bool) :
    ∃ st', GoogleAuthHelper.Configure { sampleHost with configure := fun _ => b } 100
        scopedConfig created = some (b, st') ∧
      Event.newStringUTF ⟨10, "email".toList⟩ ∈ st'.trace ∧
      Event.deleteLocalRef 10 ∉ st'.trace ∧
      st'.localRefs = created.localRefs ++ [10] ∧
      Event.deleteLocalRef 7 ∈ st'.trace ∧ Event.deleteLocalRef 8 ∈ st'.trace ∧
      Event.deleteLocalRef 9 ∈ st'.trace := by
  refine ⟨_, rfl, ?_, ?_, ?_, ?_, ?_, ?_⟩
  · decide
  · decide
  · rfl
  · decide
  · decide
  · decide

/-! ## The conversion `%d` -/

/-- The conversion `%d` on two sample values. -/
theorem format_d_samples : format_d 7 = "7".toList ∧ format_d (-17) = "-17".toList := by
  constructor <;> simp [format_d, decimal] <;> decide

/-! ## The fixed log lines -/

/-- The text read from the buffer for an expansion given as a literal without a
terminator and shorter than the buffer. -/
theorem logText_initialized :
    (lineBuffer (.text "Native Client Initialized".toList)).bind cstring =
      some "Native Client Initialized\n".toList :=
  logText_short _ (by decide) (by decide)

theorem logText_could_not_load :
    (lineBuffer (.text "Could not load web client id".toList)).bind cstring =
      some "Could not load web client id\n".toList :=
  logText_short _ (by decide) (by decide)

theorem logText_calling_authenticate :
    (lineBuffer (.text "Calling Authenticate!".toList)).bind cstring =
      some "Calling Authenticate!\n".toList :=
  logText_short _ (by decide) (by decide)

theorem logText_calling_signout :
    (lineBuffer (.text "Calling Signout".toList)).bind cstring =
      some "Calling Signout\n".toList :=
  logText_short _ (by decide) (by decide)

/-! ## `NativeOnCreate` -/

theorem loadWebClientId_nonzero_steps (host : Host) (j_id : Int) (st : State) (g : Nat)
    (s : List Char) (ha : st.g_activity = some g) (hj : j_id ≠ 0)
    (hs : host.getString j_id = some s) :
    ∃ stB, NativeOnCreate.loadWebClientId host j_id st =
        AppendLogMessage host (.text "Native Client Initialized".toList) stB ∧
      stB.g_activity = some g ∧
      stB.trace = st.trace ++
        [Event.getString g j_id,
         Event.getStringUTFLength ⟨st.nextRef, s⟩,
         Event.newCharArray ((s.length : Int) + 2) st.nextAddr,
         Event.getStringUTFChars ⟨st.nextRef, s⟩ ⟨st.nextAddr + 1, s⟩,
         Event.releaseStringUTFChars ⟨st.nextRef, s⟩ ⟨st.nextAddr + 1, s⟩,
         Event.deleteLocalRef st.nextRef] ∧
      stB.globals = (st.g_instance, some g,
        { st.AuthHelperConfig with web_client_id := some ⟨st.nextAddr, s⟩ },
        st.helper_clazz_, st.config_method_, st.authenticate_method_, st.signout_method_) ∧
      stB.nextAddr = st.nextAddr + 2 := by
  simp only [NativeOnCreate.loadWebClientId, if_pos hj, ha, hs, emit, newLocalRef,
    GetStringUTFChars, ReleaseStringUTFChars, DeleteLocalRef, strcpy]
  rw [if_pos (by omega)]
  refine ⟨_, rfl, rfl, ?_, rfl, rfl⟩
  simp only [List.append_assoc, List.singleton_append, List.cons_append, List.nil_append]

theorem loadWebClientId_nonzero (host : Host) (j_id : Int) (st : State) (g : Nat)
    (s : List Char) (ha : st.g_activity = some g) (hj : j_id ≠ 0)
    (hs : host.getString j_id = some s) :
    ∃ st' log, NativeOnCreate.loadWebClientId host j_id st = some st' ∧
      st'.trace = st.trace ++
        ([Event.getString g j_id,
         Event.getStringUTFLength ⟨st.nextRef, s⟩,
         Event.newCharArray ((s.length : Int) + 2) st.nextAddr,
         Event.getStringUTFChars ⟨st.nextRef, s⟩ ⟨st.nextAddr + 1, s⟩,
         Event.releaseStringUTFChars ⟨st.nextRef, s⟩ ⟨st.nextAddr + 1, s⟩,
         Event.deleteLocalRef st.nextRef] ++ log) ∧
      uiLines log = ["Native Client Initialized\n".toList] ∧
      authCalls log = [] ∧ getStringCalls log = [] ∧
      st'.globals = (st.g_instance, some g,
        { st.AuthHelperConfig with web_client_id := some ⟨st.nextAddr, s⟩ },
        st.helper_clazz_, st.config_method_, st.authenticate_method_, st.signout_method_) := by
  obtain ⟨stB, h, ha', htr, hgl, -⟩ := loadWebClientId_nonzero_steps host j_id st g s ha hj hs
  obtain ⟨st', h', hg, log, hn, hu, hau, hgs⟩ :=
    AppendLogMessage_spec host _ stB g _ ha' logText_initialized
  exact ⟨st', log, by rw [h, h'], by rw [hn, htr, List.append_assoc], hu, hau, hgs,
    by rw [hg, hgl]⟩

theorem loadWebClientId_zero (host : Host) (st : State) (g : Nat)
    (ha : st.g_activity = some g) :
    ∃ st' log, NativeOnCreate.loadWebClientId host 0 st = some st' ∧
      st'.trace = st.trace ++ log ∧
      uiLines log = ["Could not load web client id\n".toList] ∧
      authCalls log = [] ∧ getStringCalls log = [] ∧
      st'.globals = st.globals := by
  obtain ⟨st', h', hg, log, hn, hu, hau, hgs⟩ :=
    AppendLogMessage_spec host _ st g _ ha logText_could_not_load
  refine ⟨st', log, ?_, hn, hu, hau, hgs, hg⟩
  simp only [NativeOnCreate.loadWebClientId, ne_eq, not_true_eq_false, if_false]
  exact h'

theorem CheckJNIException_nextAddr (st : State) :
    st.nextAddr ≤ (CheckJNIException st).nextAddr := by
  unfold CheckJNIException
  cases st.exception with
  | none => exact Nat.le_refl _
  | some text =>
    simp only [newLocalRef, emit, FindClass, GetStringUTFChars, ReleaseStringUTFChars,
      DeleteLocalRef]
    omega

/-- A call of `AppendLogMessage` never hands out an address below the next
fresh one. -/
theorem AppendLogMessage_nextAddr (host : Host) (f : Formatted) (st st' : State)
    (h : AppendLogMessage host f st = some st') : st.nextAddr ≤ st'.nextAddr := by
  unfold AppendLogMessage at h
  split at h
  · exact absurd h (by simp)
  · simp only [emit, NewStringUTF, newLocalRef] at h
    split at h
    · exact absurd h (by simp)
    · split at h
      · rename_i activity text_string hact htext
        injection h with h
        subst h
        refine Nat.le_trans ?_ (CheckJNIException_nextAddr _)
        cases host.appendStatusText text_string.chars <;>
          simp only [DeleteLocalRef, emit] <;> exact Nat.le_refl _
      · exact absurd h (by simp)

/-- The block that loads the web client id takes two addresses when the
identifier is not zero: the array of `new char[size + 2]` and the characters of
`GetStringUTFChars`. -/
theorem loadWebClientId_nextAddr (host : Host) (j_id : Int) (st st' : State) (g : Nat)
    (ha : st.g_activity = some g)
    (h : NativeOnCreate.loadWebClientId host j_id st = some st') :
    st.nextAddr ≤ st'.nextAddr ∧ (j_id ≠ 0 → st.nextAddr + 2 ≤ st'.nextAddr) := by
  by_cases hj : j_id ≠ 0
  · cases hs : host.getString j_id with
    | none =>
      exfalso
      simp only [NativeOnCreate.loadWebClientId, if_pos hj, ha, hs] at h
      exact absurd h (by simp)
    | some s =>
      obtain ⟨stB, hB, -, -, -, haddr⟩ := loadWebClientId_nonzero_steps host j_id st g s ha hj hs
      rw [hB] at h
      have := AppendLogMessage_nextAddr host _ stB st' h
      exact ⟨by omega, fun _ => by omega⟩
  · simp only [NativeOnCreate.loadWebClientId, if_neg hj] at h
    exact ⟨AppendLogMessage_nextAddr host _ st st' h, fun h0 => absurd h0 hj⟩

theorem Initialize_nextAddr (host : Host) (st : State) :
    (GoogleAuthHelper.Initialize host st).nextAddr = st.nextAddr := by
  unfold GoogleAuthHelper.Initialize
  cases host.helperClassMissing <;> rfl

theorem Initialize_spec (host : Host) (st : State) :
    (GoogleAuthHelper.Initialize host st).g_instance = st.g_instance ∧
    (GoogleAuthHelper.Initialize host st).g_activity = st.g_activity ∧
    (GoogleAuthHelper.Initialize host st).AuthHelperConfig = st.AuthHelperConfig ∧
    (host.helperClassMissing = none →
      (GoogleAuthHelper.Initialize host st).helper_clazz_.isSome = true ∧
      (GoogleAuthHelper.Initialize host st).config_method_ = true ∧
      (GoogleAuthHelper.Initialize host st).authenticate_method_ = true ∧
      (GoogleAuthHelper.Initialize host st).signout_method_ = true) ∧
    ∃ r post, (GoogleAuthHelper.Initialize host st).trace =
        st.trace ++ Event.findClass HELPER_CLASSNAME r :: post ∧
      uiLines post = [] ∧ authCalls post = [] ∧ getStringCalls post = [] := by
  unfold GoogleAuthHelper.Initialize
  cases h : host.helperClassMissing with
  | some thrown =>
    simp only [emit, false_implies, true_and, reduceCtorEq]
    exact ⟨_, [], rfl, rfl, rfl, rfl⟩
  | none =>
    simp only [FindClass, NewGlobalRef, newLocalRef, emit, true_and, List.append_assoc,
      List.singleton_append, forall_true_left, and_self, Option.isSome_some]
    exact ⟨_, _, rfl, rfl, rfl, rfl⟩

/-- The statements of `NativeOnCreate` around the block that loads the web
client id. -/
theorem NativeOnCreate_steps (host : Host) (activity : Nat) (st : State) :
    ∃ stA, stA.g_activity = some st.nextRef ∧
      stA.trace = st.trace ++
        [Event.newGlobalRef activity st.nextRef,
         Event.androidLog ANDROID_LOG_WARN "Finding web client id".toList,
         Event.findClass "com/google/sample/clientserverskeleton/R$string"
           (some (st.nextRef + 1))] ∧
      stA.nextRef = st.nextRef + 2 ∧ stA.nextAddr = st.nextAddr ∧
      stA.AuthHelperConfig = st.AuthHelperConfig ∧
      ∀ stC, NativeOnCreate.loadWebClientId host host.webclient_id stA = some stC →
        ∃ st' r post, NativeOnCreate host activity st = some st' ∧
          st'.trace = stC.trace ++
            Event.deleteLocalRef (st.nextRef + 1) :: Event.findClass HELPER_CLASSNAME r :: post ∧
          uiLines post = [] ∧ authCalls post = [] ∧ getStringCalls post = [] ∧
          st'.g_activity = stC.g_activity ∧
          st'.AuthHelperConfig = stC.AuthHelperConfig ∧
          st'.g_instance.isSome = true ∧
          (host.helperClassMissing = none →
            st'.helper_clazz_.isSome = true ∧ st'.config_method_ = true ∧
            st'.authenticate_method_ = true ∧ st'.signout_method_ = true) ∧
          st'.g_instance = some stC.nextAddr ∧ st'.nextAddr = stC.nextAddr + 1 := by
  refine ⟨(FindClass "com/google/sample/clientserverskeleton/R$string"
      (emit (.androidLog ANDROID_LOG_WARN "Finding web client id".toList)
        { (NewGlobalRef activity st).2 with g_activity := some (NewGlobalRef activity st).1 })).2,
    rfl, ?_, rfl, rfl, rfl, ?_⟩
  · simp only [NewGlobalRef, emit, FindClass, newLocalRef, List.append_assoc,
      List.singleton_append, List.cons_append, List.nil_append]
  · intro stC hC
    simp only [NativeOnCreate, NewGlobalRef, emit, FindClass, newLocalRef] at hC ⊢
    rw [hC]
    obtain ⟨h1, h2, h3, h4, r, post, h5, h6, h7, h8⟩ :=
      Initialize_spec host (DeleteLocalRef (st.nextRef + 1) stC)
    have h9 := Initialize_nextAddr host (DeleteLocalRef (st.nextRef + 1) stC)
    refine ⟨_, r, post, rfl, ?_, h6, h7, h8, ?_, ?_, rfl, ?_, ?_, ?_⟩
    · simp only [GoogleAuthHelper.Create, h5]
      simp only [DeleteLocalRef, emit, List.append_assoc, List.singleton_append]
    · simp only [GoogleAuthHelper.Create, h2]
      rfl
    · simp only [GoogleAuthHelper.Create, h3]
      rfl
    · simpa only [GoogleAuthHelper.Create] using h4
    · simp only [GoogleAuthHelper.Create, h9]
      rfl
    · simp only [GoogleAuthHelper.Create, h9]
      rfl

/-- C8: `NativeOnCreate` returns whenever `getString` answers with a string `s`
for a non-zero identifier read from `webclient_id`.  If the identifier is not
zero, `web_client_id` afterwards points to the array obtained from
`new char[size + 2]`, which holds exactly `s`, while the characters handed out by
`GetStringUTFChars` are at another address.  If it is zero, `web_client_id` is
what it was, `getString` is not called, and the line
`Could not load web client id` is handed to the user interface.  In both cases
the bridge instance is created after these steps: the class lookup of
`GoogleAuthHelper::Create` follows them, `g_instance` is the address `inst` of an
object allocated by this call (not below the first free address on entry, behind
the two arrays of the non-zero case, and the last address handed out), and the
helper handles are resolved when the helper class exists. -/
theorem NativeOnCreate_web_client_id (host : Host) (activity : Nat) (st : State)
    (s : List Char)
    (hs : host.webclient_id ≠ 0 → host.getString host.webclient_id = some s) :
    ∃ st' pre r post inst, NativeOnCreate host activity st = some st' ∧
      st'.trace = st.trace ++ pre ++ Event.findClass HELPER_CLASSNAME r :: post ∧
      st'.g_instance = some inst ∧ st.nextAddr ≤ inst ∧ st'.nextAddr = inst + 1 ∧
      (host.helperClassMissing = none →
        st'.helper_clazz_.isSome = true ∧ st'.config_method_ = true ∧
        st'.authenticate_method_ = true ∧ st'.signout_method_ = true) ∧
      uiLines post = [] ∧ getStringCalls post = [] ∧
      (host.webclient_id ≠ 0 →
        st'.AuthHelperConfig.web_client_id = some ⟨st.nextAddr, s⟩ ∧
        Event.newCharArray ((s.length : Int) + 2) st.nextAddr ∈ pre ∧
        (∃ j_str, Event.getStringUTFChars j_str ⟨st.nextAddr + 1, s⟩ ∈ pre) ∧
        st.nextAddr + 2 ≤ inst ∧
        getStringCalls pre = [host.webclient_id] ∧
        uiLines pre = ["Native Client Initialized\n".toList]) ∧
      (host.webclient_id = 0 →
        st'.AuthHelperConfig.web_client_id = st.AuthHelperConfig.web_client_id ∧
        getStringCalls pre = [] ∧
        uiLines pre = ["Could not load web client id\n".toList]) := by
  obtain ⟨stA, hact, htrA, hrefA, haddrA, hcfgA, hfin⟩ := NativeOnCreate_steps host activity st
  by_cases hj : host.webclient_id ≠ 0
  · obtain ⟨stC, log, hC, htrC, hu, hau, hgs, hgl⟩ :=
      loadWebClientId_nonzero host host.webclient_id stA st.nextRef s hact hj (hs hj)
    obtain ⟨hmono, hmono2⟩ :=
      loadWebClientId_nextAddr host host.webclient_id stA stC st.nextRef hact hC
    obtain ⟨st', r, post, h, htr, hpu, hpa, hpg, -, hcfg, -, hhelp, hinst, hnext⟩ := hfin stC hC
    have hcfgC : stC.AuthHelperConfig =
        { stA.AuthHelperConfig with web_client_id := some ⟨stA.nextAddr, s⟩ } :=
      congrArg (fun x => x.2.2.1) hgl
    refine ⟨st',
      [Event.newGlobalRef activity st.nextRef,
        Event.androidLog ANDROID_LOG_WARN "Finding web client id".toList,
        Event.findClass "com/google/sample/clientserverskeleton/R$string"
          (some (st.nextRef + 1))] ++
      ([Event.getString st.nextRef host.webclient_id,
        Event.getStringUTFLength ⟨st.nextRef + 2, s⟩,
        Event.newCharArray ((s.length : Int) + 2) st.nextAddr,
        Event.getStringUTFChars ⟨st.nextRef + 2, s⟩ ⟨st.nextAddr + 1, s⟩,
        Event.releaseStringUTFChars ⟨st.nextRef + 2, s⟩ ⟨st.nextAddr + 1, s⟩,
        Event.deleteLocalRef (st.nextRef + 2)] ++ log) ++
      [Event.deleteLocalRef (st.nextRef + 1)],
      r, post, stC.nextAddr, h, ?_, hinst, by omega, hnext, hhelp, hpu, hpg,
      fun _ => ⟨?_, ?_, ?_, ?_, ?_, ?_⟩, fun h0 => absurd h0 hj⟩
    · rw [htr, htrC, htrA, hrefA, haddrA]
      simp only [List.append_assoc, List.cons_append, List.nil_append]
    · rw [hcfg, hcfgC, haddrA]
    · simp
    · exact ⟨⟨st.nextRef + 2, s⟩, by simp⟩
    · have := hmono2 hj
      omega
    · simp only [getStringCalls_append, hgs]
      rfl
    · simp only [uiLines_append, hu]
      rfl
  · have h0 : host.webclient_id = 0 := not_not.mp hj
    rw [h0] at hfin
    obtain ⟨stC, log, hC, htrC, hu, hau, hgs, hgl⟩ :=
      loadWebClientId_zero host stA st.nextRef hact
    obtain ⟨hmono, -⟩ := loadWebClientId_nextAddr host 0 stA stC st.nextRef hact hC
    obtain ⟨st', r, post, h, htr, hpu, hpa, hpg, -, hcfg, -, hhelp, hinst, hnext⟩ := hfin stC hC
    have hcfgC : stC.AuthHelperConfig = stA.AuthHelperConfig :=
      congrArg (fun x => x.2.2.1) hgl
    refine ⟨st',
      [Event.newGlobalRef activity st.nextRef,
        Event.androidLog ANDROID_LOG_WARN "Finding web client id".toList,
        Event.findClass "com/google/sample/clientserverskeleton/R$string"
          (some (st.nextRef + 1))] ++ log ++
      [Event.deleteLocalRef (st.nextRef + 1)],
      r, post, stC.nextAddr, h, ?_, hinst, by omega, hnext, hhelp, hpu, hpg,
      fun h1 => absurd h0 h1, fun _ => ⟨?_, ?_, ?_⟩⟩
    · rw [htr, htrC, htrA]
      simp only [List.append_assoc, List.cons_append, List.nil_append]
    · rw [hcfg, hcfgC, hcfgA]
    · simp only [getStringCalls_append, hgs]
      rfl
    · simp only [uiLines_append, hu]
      rfl

/-- C8 at the first `NativeOnCreate`, once on `sampleHost`, whose resource
identifier is 7, and once on `unconfiguredHost`, whose resource identifier is 0. -/
theorem NativeOnCreate_web_client_id_witness :
    ((sampleHost.webclient_id ≠ 0 →
        sampleHost.getString sampleHost.webclient_id = some "abc".toList) ∧
      ∃ st' pre r post inst, NativeOnCreate sampleHost 100 loaded = some st' ∧
        st'.trace = loaded.trace ++ pre ++ Event.findClass HELPER_CLASSNAME r :: post ∧
        st'.g_instance = some inst ∧ loaded.nextAddr ≤ inst ∧ st'.nextAddr = inst + 1 ∧
        (sampleHost.helperClassMissing = none →
          st'.helper_clazz_.isSome = true ∧ st'.config_method_ = true ∧
          st'.authenticate_method_ = true ∧ st'.signout_method_ = true) ∧
        uiLines post = [] ∧ getStringCalls post = [] ∧
        (sampleHost.webclient_id ≠ 0 →
          st'.AuthHelperConfig.web_client_id = some ⟨loaded.nextAddr, "abc".toList⟩ ∧
          Event.newCharArray (("abc".toList.length : Int) + 2) loaded.nextAddr ∈ pre ∧
          (∃ j_str, Event.getStringUTFChars j_str ⟨loaded.nextAddr + 1, "abc".toList⟩ ∈ pre) ∧
          loaded.nextAddr + 2 ≤ inst ∧
          getStringCalls pre = [sampleHost.webclient_id] ∧
          uiLines pre = ["Native Client Initialized\n".toList]) ∧
        (sampleHost.webclient_id = 0 →
          st'.AuthHelperConfig.web_client_id = loaded.AuthHelperConfig.web_client_id ∧
          getStringCalls pre = [] ∧
          uiLines pre = ["Could not load web client id\n".toList])) ∧
    ((unconfiguredHost.webclient_id ≠ 0 →
        unconfiguredHost.getString unconfiguredHost.webclient_id = some []) ∧
      ∃ st' pre r post inst, NativeOnCreate unconfiguredHost 100 loaded = some st' ∧
        st'.trace = loaded.trace ++ pre ++ Event.findClass HELPER_CLASSNAME r :: post ∧
        st'.g_instance = some inst ∧ loaded.nextAddr ≤ inst ∧ st'.nextAddr = inst + 1 ∧
        (unconfiguredHost.helperClassMissing = none →
          st'.helper_clazz_.isSome = true ∧ st'.config_method_ = true ∧
          st'.authenticate_method_ = true ∧ st'.signout_method_ = true) ∧
        uiLines post = [] ∧ getStringCalls post = [] ∧
        (unconfiguredHost.webclient_id ≠ 0 →
          st'.AuthHelperConfig.web_client_id = some ⟨loaded.nextAddr, []⟩ ∧
          Event.newCharArray ((([] : List Char).length : Int) + 2) loaded.nextAddr ∈ pre ∧
          (∃ j_str, Event.getStringUTFChars j_str ⟨loaded.nextAddr + 1, []⟩ ∈ pre) ∧
          loaded.nextAddr + 2 ≤ inst ∧
          getStringCalls pre = [unconfiguredHost.webclient_id] ∧
          uiLines pre = ["Native Client Initialized\n".toList]) ∧
        (unconfiguredHost.webclient_id = 0 →
          st'.AuthHelperConfig.web_client_id = loaded.AuthHelperConfig.web_client_id ∧
          getStringCalls pre = [] ∧
          uiLines pre = ["Could not load web client id\n".toList])) :=
  ⟨⟨fun _ => rfl, NativeOnCreate_web_client_id sampleHost 100 loaded "abc".toList fun _ => rfl⟩,
    ⟨fun h => absurd rfl h,
      NativeOnCreate_web_client_id unconfiguredHost 100 loaded [] fun h => absurd rfl h⟩⟩

/-- The first `NativeOnCreate` on `sampleHost`: the array of the web client id is
at address 1, the characters of `GetStringUTFChars` at address 2, and the bridge
instance is the object at address 3. -/
theorem NativeOnCreate_sample :
    created.AuthHelperConfig.web_client_id = some ⟨1, "abc".toList⟩ ∧
      created.g_instance = some 3 ∧ created.nextAddr = 4 ∧
      created.helper_clazz_ = some 6 := by
  set_option maxRecDepth 100000 in
  exact ⟨rfl, rfl, rfl, rfl⟩

/-! ## Program variables across the entry points -/

theorem AppendLogMessage_globals (host : Host) (f : Formatted) (st st' : State)
    (h : AppendLogMessage host f st = some st') : st'.globals = st.globals := by
  unfold AppendLogMessage at h
  split at h
  · exact absurd h (by simp)
  · simp only [emit, NewStringUTF, newLocalRef] at h
    split at h
    · exact absurd h (by simp)
    · split at h
      · rename_i activity text_string hact htext
        injection h with h
        subst h
        rw [CheckJNIException_globals]
        cases host.appendStatusText text_string.chars <;>
          simp_all [State.globals, DeleteLocalRef, emit]
      · exact absurd h (by simp)

theorem NativeOnAuthResult_globals (callback callback_data result : Int)
    (auth_code email id_token : Option JString) (st : State) :
    (GoogleAuthHelper.NativeOnAuthResult callback callback_data result auth_code email
      id_token st).globals = st.globals := by
  simp only [GoogleAuthHelper.NativeOnAuthResult]
  generalize toPointer callback = cb
  generalize toPointer callback_data = cb_data
  by_cases hcb : cb = 0
  · simp only [hcb, ne_eq, not_true_eq_false, if_false]
  · simp only [ne_eq, hcb, not_false_eq_true, if_true]
    cases auth_code <;> cases email <;> cases id_token <;>
      simp only [State.globals, getCharsOrNull, releaseIfSet, GetStringUTFChars,
        ReleaseStringUTFChars, emit]

/-- A call of `Configure` with `additional_scope_count = 0`, made once the helper
class and the method `configure` are resolved. -/
theorem Configure_without_scopes (host : Host) (activity : Nat) (config : Configuration)
    (st : State) (clazz : Nat) (h0 : config.additional_scope_count = 0)
    (hc : st.helper_clazz_ = some clazz) (hm : st.config_method_ = true) :
    ∃ w a st' new,
      GoogleAuthHelper.Configure host activity config st =
        some (host.configure
          { activity := activity
            use_game_signin := config.use_game_signin
            web_client_id := w
            request_auth_code := config.request_auth_code
            force_token_refresh := config.force_token_refresh
            request_email := config.request_email
            request_id_token := config.request_id_token
            hide_ui_popups := config.hide_ui_popups
            account_name := a
            scopes := none }, st') ∧
      w.map JString.chars = config.web_client_id.map CharPtr.chars ∧
      a.map JString.chars = config.account_name.map CharPtr.chars ∧
      st'.globals = st.globals ∧
      st'.trace = st.trace ++ new ∧
      authCalls new = [Event.configure
          { activity := activity
            use_game_signin := config.use_game_signin
            web_client_id := w
            request_auth_code := config.request_auth_code
            force_token_refresh := config.force_token_refresh
            request_email := config.request_email
            request_id_token := config.request_id_token
            hide_ui_popups := config.hide_ui_popups
            account_name := a
            scopes := none }] ∧
      uiLines new = [] := by
  simp only [GoogleAuthHelper.Configure, h0, gt_iff_lt, lt_self_iff_false, if_false]
  cases config.web_client_id <;> cases config.account_name <;>
  · simp only [NewStringUTF, newLocalRef, emit, DeleteLocalRef, Option.map, hc, hm,
      List.append_assoc]
    refine ⟨_, _, _, _, rfl, rfl, rfl, ?_, rfl, ?_, ?_⟩
    · simp only [State.globals, hc, hm]
    · simp [authCalls]
    · simp [uiLines]

theorem Configure_globals (host : Host) (activity : Nat) (config : Configuration)
    (st st' : State) (b : Bool) (h0 : config.additional_scope_count = 0)
    (h : GoogleAuthHelper.Configure host activity config st = some (b, st')) :
    st'.globals = st.globals := by
  cases hc : st.helper_clazz_ with
  | none =>
    exfalso
    simp only [GoogleAuthHelper.Configure, h0, gt_iff_lt, lt_self_iff_false, if_false] at h
    cases hw : config.web_client_id <;> cases ha : config.account_name <;>
      simp [hw, ha, NewStringUTF, newLocalRef, emit, hc] at h
  | some clazz =>
    cases hm : st.config_method_ with
    | false =>
      exfalso
      simp only [GoogleAuthHelper.Configure, h0, gt_iff_lt, lt_self_iff_false, if_false] at h
      cases hw : config.web_client_id <;> cases ha : config.account_name <;>
        simp [hw, ha, NewStringUTF, newLocalRef, emit, hc, hm] at h
    | true =>
      obtain ⟨w, a, st2, new, h2, -, -, hg, -⟩ :=
        Configure_without_scopes host activity config st clazz h0 hc hm
      rw [h2] at h
      injection h with h
      injection h with _ h
      rw [← h]; exact hg

theorem Authenticate_globals (callback callback_data : Nat) (st st' : State)
    (h : GoogleAuthHelper.Authenticate callback callback_data st = some st') :
    st'.globals = st.globals ∧
      st'.trace = st.trace ++ [Event.authenticate (toJlong callback) (toJlong callback_data)] := by
  unfold GoogleAuthHelper.Authenticate at h
  split at h
  · injection h with h
    subst h
    exact ⟨rfl, rfl⟩
  · exact absurd h (by simp)

theorem Signout_globals (st st' : State) (h : GoogleAuthHelper.Signout st = some st') :
    st'.globals = st.globals := by
  unfold GoogleAuthHelper.Signout at h
  split at h
  · injection h with h
    subst h
    rfl
  · exact absurd h (by simp)

theorem globals_config {st st' : State} (h : st'.globals = st.globals) :
    st'.AuthHelperConfig = st.AuthHelperConfig :=
  congrArg (fun x => x.2.2.1) h

theorem NativeOnClick_globals (host : Host) (activity : Nat) (tag : Int) (st st' : State)
    (h0 : st.AuthHelperConfig.additional_scope_count = 0)
    (h : NativeOnClick host activity tag st = some st') : st'.globals = st.globals := by
  unfold NativeOnClick at h
  split at h
  · cases hA : AppendLogMessage host (.text "Calling Authenticate!".toList) st with
    | none => rw [hA] at h; exact absurd h (by simp)
    | some st1 =>
      have g1 := AppendLogMessage_globals host _ st st1 hA
      rw [hA] at h
      simp only [] at h
      cases hI : st1.g_instance with
      | none => rw [hI] at h; exact absurd h (by simp)
      | some inst =>
        rw [hI] at h
        simp only [] at h
        cases hC : GoogleAuthHelper.Configure host activity st1.AuthHelperConfig st1 with
        | none => rw [hC] at h; exact absurd h (by simp)
        | some r =>
          obtain ⟨b, st2⟩ := r
          rw [hC] at h
          simp only [] at h
          have g2 := Configure_globals host activity _ st1 st2 b
            (by rw [globals_config g1]; exact h0) hC
          have g3 := (Authenticate_globals _ _ st2 st' h).1
          rw [g3, g2, g1]
  · split at h
    · cases hA : AppendLogMessage host (.text "Calling Signout".toList) st with
      | none => rw [hA] at h; exact absurd h (by simp)
      | some st1 =>
        have g1 := AppendLogMessage_globals host _ st st1 hA
        rw [hA] at h
        simp only [] at h
        cases hI : st1.g_instance with
        | none => rw [hI] at h; exact absurd h (by simp)
        | some inst =>
          rw [hI] at h
          simp only [] at h
          rw [Signout_globals st1 st' h, g1]
    · exact AppendLogMessage_globals host _ st st' h

theorem NativeOnCreate_after (host : Host) (activity : Nat) (st st' : State)
    (h : NativeOnCreate host activity st = some st') :
    st'.g_activity.isSome = true ∧ st'.g_instance.isSome = true ∧
      (∃ w, st'.AuthHelperConfig = { st.AuthHelperConfig with web_client_id := w }) ∧
      (host.helperClassMissing = none →
        st'.helper_clazz_.isSome = true ∧ st'.config_method_ = true ∧
        st'.authenticate_method_ = true ∧ st'.signout_method_ = true) := by
  obtain ⟨stA, hact, htrA, hrefA, haddrA, hcfgA, hfin⟩ := NativeOnCreate_steps host activity st
  have key : ∀ stC, NativeOnCreate.loadWebClientId host host.webclient_id stA = some stC →
      stC.g_activity = some st.nextRef →
      (∃ w, stC.AuthHelperConfig = { st.AuthHelperConfig with web_client_id := w }) →
      st'.g_activity.isSome = true ∧ st'.g_instance.isSome = true ∧
      (∃ w, st'.AuthHelperConfig = { st.AuthHelperConfig with web_client_id := w }) ∧
      (host.helperClassMissing = none →
        st'.helper_clazz_.isSome = true ∧ st'.config_method_ = true ∧
        st'.authenticate_method_ = true ∧ st'.signout_method_ = true) := by
    intro stC hC hactC hcfgC
    obtain ⟨st2, r, post, h2, -, -, -, -, hact2, hcfg2, hinst, hhelp, -⟩ := hfin stC hC
    rw [h2] at h
    injection h with h
    subst h
    exact ⟨by rw [hact2, hactC]; rfl, hinst, by rw [hcfg2]; exact hcfgC, hhelp⟩
  by_cases hj : host.webclient_id ≠ 0
  · cases hs : host.getString host.webclient_id with
    | none =>
      exfalso
      simp only [NativeOnCreate, NativeOnCreate.loadWebClientId, if_pos hj, hs, NewGlobalRef,
        emit, FindClass, newLocalRef] at h
      exact absurd h (by simp)
    | some s =>
      obtain ⟨stC, log, hC, -, -, -, -, hgl⟩ :=
        loadWebClientId_nonzero host host.webclient_id stA st.nextRef s hact hj hs
      have hcfgC : stC.AuthHelperConfig =
          { stA.AuthHelperConfig with web_client_id := some ⟨stA.nextAddr, s⟩ } :=
        congrArg (fun x => x.2.2.1) hgl
      refine key stC hC (congrArg (fun x => x.2.1) hgl) ⟨some ⟨stA.nextAddr, s⟩, ?_⟩
      rw [hcfgC, hcfgA]
  · have h0 : host.webclient_id = 0 := not_not.mp hj
    rw [h0] at hfin key
    obtain ⟨stC, log, hC, -, -, -, -, hgl⟩ := loadWebClientId_zero host stA st.nextRef hact
    have hactC : stC.g_activity = stA.g_activity := congrArg (fun x => x.2.1) hgl
    refine key stC hC ?_ ⟨st.AuthHelperConfig.web_client_id, ?_⟩
    · rw [hactC]; exact hact
    · rw [globals_config hgl, hcfgA]

theorem OnAuthenticated_globals (host : Host) (cb_data : Nat) (rc : Int)
    (auth_code email id_token : Option CharPtr) (st st' : State)
    (h : OnAuthenticated host cb_data rc auth_code email id_token st = some st') :
    st'.globals = st.globals := by
  unfold OnAuthenticated at h
  obtain ⟨st1, h1, h⟩ := Option.bind_eq_some.mp h
  obtain ⟨st2, h2, h⟩ := Option.bind_eq_some.mp h
  obtain ⟨st3, h3, h4⟩ := Option.bind_eq_some.mp h
  rw [AppendLogMessage_globals host _ st3 st' h4, AppendLogMessage_globals host _ st2 st3 h3,
    AppendLogMessage_globals host _ st1 st2 h2, AppendLogMessage_globals host _ st st1 h1]

theorem globals_fields {st st' : State} (h : st'.globals = st.globals) :
    st'.g_instance = st.g_instance ∧ st'.g_activity = st.g_activity ∧
      st'.AuthHelperConfig = st.AuthHelperConfig ∧ st'.helper_clazz_ = st.helper_clazz_ ∧
      st'.config_method_ = st.config_method_ ∧
      st'.authenticate_method_ = st.authenticate_method_ ∧
      st'.signout_method_ = st.signout_method_ := by
  simpa [State.globals] using h

/-- What holds of the program variables in every state reached after
`NativeOnCreate`: the activity and the bridge instance are set, the shared
configuration is the static initializer except for `web_client_id`, and the
helper handles are resolved when the helper class exists. -/
theorem reached_invariant (host : Host) (st : State) (h : ReachedAfterOnCreate host st) :
    st.g_activity.isSome = true ∧ st.g_instance.isSome = true ∧
      (∃ w, st.AuthHelperConfig = { AuthHelperConfig with web_client_id := w }) ∧
      (host.helperClassMissing = none →
        st.helper_clazz_.isSome = true ∧ st.config_method_ = true ∧
        st.authenticate_method_ = true ∧ st.signout_method_ = true) := by
  induction h with
  | create activity st' h =>
    obtain ⟨h1, h2, ⟨w, h3⟩, h4⟩ := NativeOnCreate_after host activity loaded st' h
    exact ⟨h1, h2, ⟨w, h3⟩, h4⟩
  | recreate activity st st' _ h ih =>
    obtain ⟨h1, h2, ⟨w, h3⟩, h4⟩ := NativeOnCreate_after host activity st st' h
    obtain ⟨-, -, ⟨w0, hc⟩, -⟩ := ih
    refine ⟨h1, h2, ⟨w, ?_⟩, h4⟩
    rw [h3, hc]
  | click activity tag st st' _ h ih =>
    obtain ⟨i1, i2, ⟨w0, hc⟩, i4⟩ := ih
    have hg := NativeOnClick_globals host activity tag st st' (by rw [hc]; rfl) h
    obtain ⟨g1, g2, g3, g4, g5, g6, g7⟩ := globals_fields hg
    rw [g1, g2, g3, g4, g5, g6, g7]
    exact ⟨i1, i2, ⟨w0, hc⟩, i4⟩
  | authResult callback callback_data result auth_code email id_token st _ ih =>
    have hg := NativeOnAuthResult_globals callback callback_data result auth_code email
      id_token st
    obtain ⟨g1, g2, g3, g4, g5, g6, g7⟩ := globals_fields hg
    rw [g1, g2, g3, g4, g5, g6, g7]
    exact ih
  | authenticated cb_data rc auth_code email id_token st st' _ h ih =>
    have hg := OnAuthenticated_globals host cb_data rc auth_code email id_token st st' h
    obtain ⟨g1, g2, g3, g4, g5, g6, g7⟩ := globals_fields hg
    rw [g1, g2, g3, g4, g5, g6, g7]
    exact ih

/-- C3 as stated fails on a managed side without the helper class:
`NativeOnCreate` on `missingHelperHost` returns, so `createdWithoutHelper` is a
state reached after `NativeOnCreate`, with the bridge instance set and the helper
handles null; there `NativeOnClick` with tag 1 has no defined result, because
`Configure` calls through the null class and method handles, and so it makes no
`configure` call that returns. -/
theorem sign_in_without_helper_class :
    ReachedAfterOnCreate missingHelperHost createdWithoutHelper ∧
      createdWithoutHelper.g_instance = some 3 ∧
      createdWithoutHelper.helper_clazz_ = none ∧
      createdWithoutHelper.config_method_ = false ∧
      NativeOnClick missingHelperHost 100 1 createdWithoutHelper = none ∧
      ¬ ∃ st', NativeOnClick missingHelperHost 100 1 createdWithoutHelper = some st' := by
  set_option maxRecDepth 100000 in
  exact ⟨ReachedAfterOnCreate.create 100 createdWithoutHelper rfl, rfl, rfl, rfl, rfl,
    fun ⟨_, h⟩ => Option.noConfusion ((rfl : NativeOnClick missingHelperHost 100 1
      createdWithoutHelper = none).symm.trans h)⟩

/-- C3, amended: in every state reached after `NativeOnCreate`, on a managed side
that has the helper class, `NativeOnClick` with tag 1 returns, whatever boolean the
managed `configure` returns, and its calls into the auth helper are, in this
order, one `configure` call with the flags of the static configuration
(`use_game_signin` and `request_auth_code` true, the four others false), the
web client id string of the shared configuration, a null account name and a null
scope array, and one `authenticate` call with the handle of `OnAuthenticated`
and a null data handle; there is no `signOut` call. -/
theorem NativeOnClick_sign_in (host : Host) (activity : Nat) (st : State)
    (h : ReachedAfterOnCreate host st) (hfound : host.helperClassMissing = none) :
    ∃ st' new w, NativeOnClick host activity 1 st = some st' ∧
      st'.trace = st.trace ++ new ∧
      authCalls new =
        [Event.configure
          { activity := activity
            use_game_signin := true
            web_client_id := w
            request_auth_code := true
            force_token_refresh := false
            request_email := false
            request_id_token := false
            hide_ui_popups := false
            account_name := none
            scopes := none },
         Event.authenticate (toJlong host.OnAuthenticated) 0] ∧
      w.map JString.chars = st.AuthHelperConfig.web_client_id.map CharPtr.chars := by
  obtain ⟨i1, i2, ⟨w0, hcfg⟩, i4⟩ := reached_invariant host st h
  obtain ⟨i4, i5, i6, -⟩ := i4 hfound
  obtain ⟨g, hact⟩ := Option.isSome_iff_exists.mp i1
  obtain ⟨inst, hinst⟩ := Option.isSome_iff_exists.mp i2
  obtain ⟨clazz, hclazz⟩ := Option.isSome_iff_exists.mp i4
  obtain ⟨st1, hA, hg1, new1, htr1, -, hau1, -⟩ :=
    AppendLogMessage_spec host _ st g _ hact logText_calling_authenticate
  obtain ⟨a1, a2, a3, a4, a5, a6, a7⟩ := globals_fields hg1
  obtain ⟨w, a, st2, new2, hC, hw, ha, hg2, htr2, hau2, -⟩ :=
    Configure_without_scopes host activity st1.AuthHelperConfig st1 clazz
      (by rw [a3, hcfg]; rfl) (by rw [a4, hclazz]) (by rw [a5, i5])
  obtain ⟨b1, b2, b3, b4, b5, b6, b7⟩ := globals_fields hg2
  have hAuth : GoogleAuthHelper.Authenticate host.OnAuthenticated 0 st2 =
      some (emit (.authenticate (toJlong host.OnAuthenticated) (toJlong 0)) st2) := by
    simp only [GoogleAuthHelper.Authenticate, b4, a4, hclazz, b6, a6, i6]
  have hacc : a = none := by
    rw [a3, hcfg] at ha
    simpa [AuthHelperConfig] using ha
  refine ⟨emit (.authenticate (toJlong host.OnAuthenticated) (toJlong 0)) st2,
    new1 ++ new2 ++ [Event.authenticate (toJlong host.OnAuthenticated) 0], w, ?_, ?_, ?_, ?_⟩
  · simp only [NativeOnClick, TAG_SIGNIN, if_true, hA, a1, hinst, hC, hAuth]
  · simp only [emit, htr2, htr1, List.append_assoc, toJlong_zero]
  · rw [authCalls_append, authCalls_append, hau1, hau2, hacc, a3, hcfg]
    rfl
  · rw [hw, a3]

set_option maxRecDepth 100000 in
/-- C3, amended, at the state after `NativeOnCreate` on `sampleHost`. -/
theorem NativeOnClick_sign_in_witness :
    (ReachedAfterOnCreate sampleHost created ∧ sampleHost.helperClassMissing = none) ∧
    ∃ st' new w, NativeOnClick sampleHost 100 1 created = some st' ∧
      st'.trace = created.trace ++ new ∧
      authCalls new =
        [Event.configure
          { activity := 100
            use_game_signin := true
            web_client_id := w
            request_auth_code := true
            force_token_refresh := false
            request_email := false
            request_id_token := false
            hide_ui_popups := false
            account_name := none
            scopes := none },
         Event.authenticate (toJlong sampleHost.OnAuthenticated) 0] ∧
      w.map JString.chars = created.AuthHelperConfig.web_client_id.map CharPtr.chars :=
  ⟨⟨ReachedAfterOnCreate.create 100 created rfl, rfl⟩,
    NativeOnClick_sign_in sampleHost 100 created (ReachedAfterOnCreate.create 100 created rfl) rfl⟩

end ClientServerSkeleton
